import Mathlib

/-!
Verification development for the Wingman orchestration subsystem.

This file gives a shallow embedding of the parts of the program that the
specification's claims are about:

* `src/wingman/database.py` — the SQLite store (`seen_items`,
  `watcher_state` tables and their operations), modelled as a pure state
  `DBState`.  Timestamps are ISO-8601 TEXT columns in the code; they are
  modelled as `String`, with the lexicographic `String` order standing for
  chronological order (ISO timestamps compare correctly as strings).  Each
  store call stamps `datetime.now()`; the model passes this clock value
  explicitly as a `now` argument.
* `src/wingman/utils/retry.py` — the bounded-backoff retry wrapper,
  modelled as a recursion producing the call count, the list of sleeps and
  the final outcome.  Delays are `ℚ` (the code uses Python floats; the
  claims are about the exact products `baseDelay · backoffFactor ^ i`).
* `src/wingman/scheduler.py` — the per-watcher run cycle, the per-item
  pipeline, failure escalation and notification dispatch.  External
  collaborators (`watcher.check()`, `TriageAnalyzer.analyze`,
  `notifier.send`) are modelled by their outcomes: an `Except` value per
  call, error meaning a raised exception.  Dispatched notifications are
  recorded as an event trace.
-/

namespace Wingman

/-- Model of `WatcherItem` from `src/wingman/watchers/base.py`: one item discovered
by a watcher.  All fields are strings, as in the dataclass. -/
structure WatcherItem where
  source : String
  source_id : String
  item_type : String
  repo_or_context : String
  title : String
  body : String
  author : String
  url : String
  created_at : String
  deriving DecidableEq, Repr

/-- A row of the `seen_items` table (schema in `Database._create_tables`).
The surrogate `id INTEGER PRIMARY KEY` column is represented by the row's
position in the list; `classification`, `severity`, `summary`,
`notified_at` and `created_at` are nullable columns. -/
structure SeenRecord where
  source : String
  source_id : String
  item_type : String
  repo_or_context : String
  title : String
  body : String
  author : String
  url : String
  classification : Option String
  severity : Option String
  summary : Option String
  notified_at : Option String
  first_seen_at : String
  created_at : String
  deriving DecidableEq, Repr

/-- Watcher metadata: the JSON object stored in the `metadata` column,
modelled as a partial map from keys to values. -/
def Meta : Type := String → Option String

/-- The empty metadata object (`"{}"`). -/
def Meta.empty : Meta := fun _ => none

/-- Model of `merged_meta.update(metadata)` in `Database.update_watcher_state`:
key-wise merge, new keys override. -/
def Meta.merge (old new : Meta) : Meta :=
  fun k => match new k with
  | some v => some v
  | none => old k

/-- A row of the `watcher_state` table, keyed by `watcher_name`. -/
structure WatcherState where
  last_check_at : Option String
  last_successful_at : Option String
  consecutive_failures : Nat
  metadata : Meta

/-- The database state: the `seen_items` table in insertion order and the
`watcher_state` table as a map from watcher name to its row.  (The
`forge_tokens` table is not involved in any claim.) -/
structure DBState where
  seen_items : List SeenRecord
  watcher_states : String → Option WatcherState

/-- The empty database, as created by `Database._create_tables`. -/
def DBState.empty : DBState :=
  { seen_items := [], watcher_states := fun _ => none }

/-- Does a `seen_items` row match the identity key `(source, source_id,
item_type)` (the `WHERE` clause shared by `is_seen`, the unique index and
`update_triage`)? -/
def key_matches (r : SeenRecord) (source source_id item_type : String) : Bool :=
  r.source == source && r.source_id == source_id && r.item_type == item_type

/-- Model of `Database.is_seen`: identity-key existence check on `seen_items`. -/
def is_seen (source source_id item_type : String) (db : DBState) : Bool :=
  db.seen_items.any (fun r => key_matches r source source_id item_type)

/-- The row that `Database.mark_seen` inserts for `item` at time `now`:
triage columns and `notified_at` are left NULL, `first_seen_at` is the
insertion time. -/
def mk_record (item : WatcherItem) (now : String) : SeenRecord :=
  { source := item.source
    source_id := item.source_id
    item_type := item.item_type
    repo_or_context := item.repo_or_context
    title := item.title
    body := item.body
    author := item.author
    url := item.url
    classification := none
    severity := none
    summary := none
    notified_at := none
    first_seen_at := now
    created_at := item.created_at }

/-- Model of `Database.mark_seen`: `INSERT OR IGNORE` — the unique index
`idx_seen_source` on `(source, source_id, item_type)` makes the insert a
no-op when a row with the same identity key already exists. -/
def mark_seen (item : WatcherItem) (now : String) (db : DBState) : DBState :=
  if is_seen item.source item.source_id item.item_type db then db
  else { db with seen_items := db.seen_items ++ [mk_record item now] }

/-- The column update applied by `Database.update_triage` to a matching
row: `SET classification=?, severity=?, summary=?, notified_at=?`. -/
def set_triage (classification severity summary now : String) (r : SeenRecord) :
    SeenRecord :=
  { r with classification := some classification, severity := some severity,
           summary := some summary, notified_at := some now }

/-- Model of `Database.update_triage`: `UPDATE seen_items SET ... WHERE` the
identity key matches (every matching row is updated; rows that do not
match are untouched; no row is inserted). -/
def update_triage (source source_id item_type classification severity summary :
    String) (now : String) (db : DBState) : DBState :=
  { db with seen_items := db.seen_items.map (fun r =>
      if key_matches r source source_id item_type then
        set_triage classification severity summary now r
      else r) }

/-- Model of `Database.get_watcher_state`: `SELECT * FROM watcher_state WHERE
watcher_name=?` (returns the row or `None`). -/
def get_watcher_state (watcher_name : String) (db : DBState) :
    Option WatcherState :=
  db.watcher_states watcher_name

/-- Replace (or insert) the `watcher_state` row for one name. -/
def set_watcher_state (watcher_name : String) (st : WatcherState)
    (db : DBState) : DBState :=
  { db with watcher_states := fun n =>
      if n = watcher_name then some st else db.watcher_states n }

/-- Model of `Database.update_watcher_state`: read-modify-write of one
`watcher_state` row at time `now`.  No existing row: insert with
`last_successful_at = now` and `consecutive_failures = 0` on success, else
`NULL` and `1`.  Existing row: `consecutive_failures` becomes `0` on
success and `existing + 1` on failure; `last_successful_at` is set to
`now` only when successful (`CASE WHEN ? THEN ? ELSE last_successful_at
END`), and the metadata patch merges key-wise. -/
def update_watcher_state (watcher_name : String) (successful : Bool)
    (metadata : Option Meta) (now : String) (db : DBState) : DBState :=
  match get_watcher_state watcher_name db with
  | none =>
      set_watcher_state watcher_name
        { last_check_at := some now
          last_successful_at := if successful then some now else none
          consecutive_failures := if successful then 0 else 1
          metadata := metadata.getD Meta.empty } db
  | some existing =>
      set_watcher_state watcher_name
        { last_check_at := some now
          last_successful_at :=
            if successful then some now else existing.last_successful_at
          consecutive_failures :=
            if successful then 0 else existing.consecutive_failures + 1
          metadata := match metadata with
            | some m => existing.metadata.merge m
            | none => existing.metadata } db

/-- Model of `Database.get_consecutive_failures`: the row's counter, `0` when the
row is absent. -/
def get_consecutive_failures (watcher_name : String) (db : DBState) : Nat :=
  match get_watcher_state watcher_name db with
  | none => 0
  | some st => st.consecutive_failures

/-- Model of `Database.is_first_run`: true iff there is no state row or its
`last_successful_at` is NULL. -/
def is_first_run (watcher_name : String) (db : DBState) : Bool :=
  match get_watcher_state watcher_name db with
  | none => true
  | some st => st.last_successful_at.isNone

/-! ### Retry wrapper (`src/wingman/utils/retry.py`) -/

/-- Observable behaviour of one invocation of a function wrapped by
`retry`.  `outcome = .ok a` is a normal return; `.error (some e)` is the
exception `e` leaving the wrapper (a non-retryable exception propagating
out of the `try`, or the final `raise last_exception`); `.error none` is
`raise last_exception` with `last_exception` still `None` (reachable only
when `max_attempts = 0`, where Python would raise a `TypeError`).
`sleeps` lists the `time.sleep` durations in order and `calls` counts the
invocations of the wrapped function. -/
structure RetryTrace (E A : Type) where
  outcome : Except (Option E) A
  sleeps : List ℚ
  calls : Nat

/-- The `for attempt in range(max_attempts)` loop of `retry.wrapper`,
parameterised by the outcome `op i` of the wrapped call on 0-based attempt
`i` and by the predicate `retryable` modelling `isinstance(e, exceptions)`.
`attempt` is the current 0-based index and `remaining` the number of loop
iterations still available including this one (`attempt < max_attempts - 1`
iff `remaining > 1`).  On a retryable failure before the last attempt the
wrapper sleeps `base_delay * backoff_factor ^ attempt` and retries; on the
last attempt it falls out of the loop and re-raises the failure; a
non-retryable failure is not caught and propagates at once. -/
def retry_go {E A : Type} (op : Nat → Except E A) (retryable : E → Bool)
    (base_delay backoff_factor : ℚ) :
    Nat → Nat → Option E → RetryTrace E A
  | _, 0, last_exception => ⟨.error last_exception, [], 0⟩
  | attempt, remaining + 1, _ =>
    match op attempt with
    | .ok a => ⟨.ok a, [], 1⟩
    | .error e =>
      if retryable e then
        if remaining = 0 then ⟨.error (some e), [], 1⟩
        else
          let delay := base_delay * backoff_factor ^ attempt
          let rest := retry_go op retryable base_delay backoff_factor
            (attempt + 1) remaining (some e)
          ⟨rest.outcome, delay :: rest.sleeps, rest.calls + 1⟩
      else ⟨.error (some e), [], 1⟩

/-- Model of calling a function wrapped by
`retry(max_attempts, base_delay, backoff_factor, exceptions)` once. -/
def retry_run {E A : Type} (op : Nat → Except E A) (retryable : E → Bool)
    (base_delay backoff_factor : ℚ) (max_attempts : Nat) : RetryTrace E A :=
  retry_go op retryable base_delay backoff_factor 0 max_attempts none

/-! ### Scheduler (`src/wingman/scheduler.py`) -/

/-- Model of `TriageResult` from `src/wingman/notifications/formatter.py`. -/
structure TriageResult where
  classification : String
  severity : String
  summary : String
  reasoning : String := ""
  deriving DecidableEq, Repr

/-- The fixed fallback triage substituted by `_process_item` when
`self.triage.analyze(item)` raises. -/
def fallback_triage : TriageResult :=
  { classification := "unclassified"
    severity := "unknown"
    summary := "AI triage unavailable" }

/-- Notifications handed to `_send_notification` during a cycle, as an
event trace.  `item_note` stands for the `format_notification(...)` output
for one item (carrying the inputs that determine it); `escalation` stands
for the `format_watcher_failure(...)` output, carrying the watcher name,
failure count, error text and the rendered last-success field. -/
inductive Event where
  | item_note (item : WatcherItem) (triage : TriageResult)
  | escalation (watcher_name : String) (failures : Nat) (error : String)
      (last_success : String)
  deriving DecidableEq, Repr

/-- The `try`/`except` around `self.triage.analyze(item)` in
`_process_item`: the analyzer's result on success, the fixed fallback when
it raised. -/
def resolve_triage (analyze : Except String TriageResult) : TriageResult :=
  match analyze with
  | .ok r => r
  | .error _ => fallback_triage

/-- Model of `_process_item`: triage with fallback, then `mark_seen`
(via `watcher.mark_seen`, which forwards the item's fields to
`Database.mark_seen`), then `update_triage`; if the cycle's `first_run`
snapshot is true and `first_run_notify` is not configured, return without
notifying, else format and send one notification.  `analyze` is the
outcome of `self.triage.analyze(item)`. -/
def process_item (first_run_notify first_run : Bool)
    (analyze : Except String TriageResult) (item : WatcherItem)
    (now : String) (db : DBState) : DBState × List Event :=
  let result := resolve_triage analyze
  let db1 := mark_seen item now db
  let db2 := update_triage item.source item.source_id item.item_type
    result.classification result.severity result.summary now db1
  if first_run && !first_run_notify then (db2, [])
  else (db2, [.item_note item result])

/-- The `for item in new_items` loop of `_run_watcher`: process each item
in order, threading the database state and concatenating the dispatched
notifications. -/
def process_batch (first_run_notify first_run : Bool)
    (analyze : WatcherItem → Except String TriageResult) (now : String) :
    List WatcherItem → DBState → DBState × List Event
  | [], db => (db, [])
  | item :: rest, db =>
    let step := process_item first_run_notify first_run (analyze item) item now db
    let tail := process_batch first_run_notify first_run analyze now rest step.1
    (tail.1, step.2 ++ tail.2)

/-- The value `_notify_watcher_failure` passes as `last_success`:
`state.get("last_successful_at", "Never") if state else "Never"`.  A
`SELECT *` row always contains the `last_successful_at` key, so the
`"Never"` default of `.get` only applies when the row is absent; a NULL
column yields Python `None` (modelled `none`). -/
def last_success_param : Option WatcherState → Option String
  | none => some "Never"
  | some st => st.last_successful_at

/-- The last-success field rendered by `format_watcher_failure`:
`last_success or 'Never'` (Python `or` replaces both `None` and the empty
string with `'Never'`). -/
def display_last_success : Option String → String
  | none => "Never"
  | some s => if s = "" then "Never" else s

/-- Model of `_notify_watcher_failure`: re-read the watcher state and
build the escalation notification. -/
def notify_watcher_failure (watcher_name : String) (failures : Nat)
    (error : String) (db : DBState) : Event :=
  .escalation watcher_name failures error
    (display_last_success (last_success_param (get_watcher_state watcher_name db)))

/-- Model of one `_run_watcher` cycle.  `check` is the outcome of the
`try` block up to the loop: `.ok items` when `watcher.check()` returned
`items`, `.error e` when an exception `e` escaped (typically from
`check()` itself).  Success path: snapshot `is_first_run` once, process
the batch, record success.  Failure path: record the failure, re-read the
consecutive-failure count and escalate iff `failures >= 5 and
failures % 5 == 0`; the exception is then swallowed. -/
def run_watcher (watcher_name : String) (first_run_notify : Bool)
    (check : Except String (List WatcherItem))
    (analyze : WatcherItem → Except String TriageResult)
    (now : String) (db : DBState) : DBState × List Event :=
  match check with
  | .ok new_items =>
    let first_run := is_first_run watcher_name db
    let step := process_batch first_run_notify first_run analyze now new_items db
    (update_watcher_state watcher_name true none now step.1, step.2)
  | .error e =>
    let db1 := update_watcher_state watcher_name false none now db
    let failures := get_consecutive_failures watcher_name db1
    if 5 ≤ failures ∧ failures % 5 = 0 then
      (db1, [notify_watcher_failure watcher_name failures e db1])
    else (db1, [])

/-- How `_send_notification` handles one notifier: `notifier.send` either
returns a boolean (`sent`) or raises, in which case the exception is
caught and logged (`failed_logged`). -/
inductive ChannelOutcome where
  | sent (ok : Bool)
  | failed_logged (e : String)
  deriving DecidableEq, Repr

/-- One iteration of the `for notifier in self.notifiers` loop:
`try: notifier.send(notification) except Exception as e: logger.error`. -/
def try_send (send_result : Except String Bool) : ChannelOutcome :=
  match send_result with
  | .ok b => .sent b
  | .error e => .failed_logged e

/-- Model of `_send_notification`: attempt every configured notifier in
order; a raised exception is caught inside the loop body, so it reaches
neither the later notifiers nor the caller.  `send_results` gives each
notifier's `send` outcome for this notification. -/
def send_notification : List (Except String Bool) → List ChannelOutcome
  | [] => []
  | r :: rest => try_send r :: send_notification rest

/-- Iterated failing cycles for one watcher: `iterate_failures name times
n db` records `n` consecutive failures (each modelled by the failure
branch's `update_watcher_state(name, successful=False)` at time
`times i`). -/
def iterate_failures (watcher_name : String) (times : Nat → String) :
    Nat → DBState → DBState
  | 0, db => db
  | n + 1, db =>
    iterate_failures watcher_name times n
      (update_watcher_state watcher_name false none (times n) db)

/-! ### Observables used to state the claims -/

/-- Number of `seen_items` rows matching an identity key. -/
def seen_count (source source_id item_type : String) (db : DBState) : Nat :=
  (db.seen_items.filter (fun r => key_matches r source source_id item_type)).length

/-- First `seen_items` row matching an identity key (`SELECT` by the
unique index). -/
def find_record (source source_id item_type : String) (db : DBState) :
    Option SeenRecord :=
  db.seen_items.find? (fun r => key_matches r source source_id item_type)

/-- A sequence of `mark_seen` calls — each entry an item and the call
time — applied in order. -/
def apply_mark_seen : List (WatcherItem × String) → DBState → DBState
  | [], db => db
  | c :: rest, db => apply_mark_seen rest (mark_seen c.1 c.2 db)

/-- The recorded `last_successful_at` value of a watcher: `NULL`-or-absent
collapses to `none`. -/
def recorded_last_success (watcher_name : String) (db : DBState) :
    Option String :=
  (get_watcher_state watcher_name db).bind (fun st => st.last_successful_at)

/-- A concrete item used by the witness theorems. -/
def sample_item : WatcherItem :=
  { source := "github"
    source_id := "42"
    item_type := "issue"
    repo_or_context := "owner/repo"
    title := "crash on load"
    body := "it crashed"
    author := "alice"
    url := "http://example.test/42"
    created_at := "2024-01-01T00:00:00+00:00" }

/-- A second concrete item with a distinct identity key, used by the
witness theorems. -/
def sample_item2 : WatcherItem :=
  { source := "github"
    source_id := "43"
    item_type := "comment"
    repo_or_context := "owner/repo"
    title := "re: crash on load"
    body := "same here"
    author := "bob"
    url := "http://example.test/43"
    created_at := "2024-01-02T00:00:00+00:00" }

/-- A concrete triage result used by the witness theorems. -/
def sample_triage : TriageResult :=
  { classification := "bug_report"
    severity := "high"
    summary := "crash when loading" }

/-- A concrete database whose watcher `"w"` has one recorded success at
time `"1"`, used by the witness theorems. -/
def sample_state_db : DBState :=
  update_watcher_state "w" true none "1" DBState.empty

/-- A concrete database whose watcher `"github"` has four recorded
consecutive failures and no successful run, used by the C9 theorems. -/
def four_failures_db : DBState :=
  iterate_failures "github" (fun _ => "2024-06-01T00:00:00+00:00") 4
    DBState.empty

/-! ### Basic lemmas about the seen-items table -/

lemma key_matches_eq_true (r : SeenRecord) (s sid ty : String) :
    key_matches r s sid ty = true ↔
      (r.source = s ∧ r.source_id = sid ∧ r.item_type = ty) := by
  simp [key_matches, and_assoc]

lemma key_matches_mk_record_self (item : WatcherItem) (now : String) :
    key_matches (mk_record item now) item.source item.source_id item.item_type
      = true := by
  simp [key_matches, mk_record]

lemma key_matches_set_triage (c v su now : String) (r : SeenRecord)
    (s sid ty : String) :
    key_matches (set_triage c v su now r) s sid ty = key_matches r s sid ty :=
  rfl

lemma mark_seen_of_seen (item : WatcherItem) (now : String) (db : DBState)
    (h : is_seen item.source item.source_id item.item_type db = true) :
    mark_seen item now db = db := by
  simp [mark_seen, h]

lemma mark_seen_of_not_seen (item : WatcherItem) (now : String) (db : DBState)
    (h : is_seen item.source item.source_id item.item_type db = false) :
    (mark_seen item now db).seen_items
      = db.seen_items ++ [mk_record item now] := by
  simp [mark_seen, h]

lemma is_seen_mark_seen_self (item : WatcherItem) (now : String)
    (db : DBState) :
    is_seen item.source item.source_id item.item_type (mark_seen item now db)
      = true := by
  cases h : is_seen item.source item.source_id item.item_type db
  · have happ := mark_seen_of_not_seen item now db h
    simp [is_seen, happ, key_matches_mk_record_self]
  · rw [mark_seen_of_seen item now db h]
    exact h

lemma apply_mark_seen_of_seen (s sid ty : String)
    (calls : List (WatcherItem × String)) :
    ∀ db : DBState,
      (∀ c ∈ calls, c.1.source = s ∧ c.1.source_id = sid ∧ c.1.item_type = ty) →
      is_seen s sid ty db = true →
      apply_mark_seen calls db = db := by
  induction calls with
  | nil => intro db _ _; rfl
  | cons c rest ih =>
    intro db hkeys hseen
    obtain ⟨h1, h2, h3⟩ := hkeys c (List.mem_cons_self c rest)
    have hm : mark_seen c.1 c.2 db = db := by
      apply mark_seen_of_seen
      rw [h1, h2, h3]
      exact hseen
    simp only [apply_mark_seen, hm]
    exact ih db (fun x hx => hkeys x (List.mem_cons_of_mem c hx)) hseen

/-- C1.  For every identity key, `mark_seen` is insert-if-absent: after
any nonempty sequence of `mark_seen` calls for the same key (on a database
not yet holding the key), exactly one matching `SeenRecord` exists, it is
the row inserted by the first call (first-write-wins; later duplicate
calls are no-ops), and `is_seen` returns true immediately after the first
call. -/
theorem mark_seen_first_write_wins (s sid ty : String)
    (c : WatcherItem × String) (rest : List (WatcherItem × String))
    (db : DBState)
    (hkeys : ∀ x ∈ c :: rest,
      x.1.source = s ∧ x.1.source_id = sid ∧ x.1.item_type = ty)
    (h0 : is_seen s sid ty db = false) :
    seen_count s sid ty (apply_mark_seen (c :: rest) db) = 1
    ∧ find_record s sid ty (apply_mark_seen (c :: rest) db)
        = some (mk_record c.1 c.2)
    ∧ is_seen s sid ty (mark_seen c.1 c.2 db) = true := by
  obtain ⟨h1, h2, h3⟩ := hkeys c (List.mem_cons_self c rest)
  have h0' : is_seen c.1.source c.1.source_id c.1.item_type db = false := by
    rw [h1, h2, h3]; exact h0
  have happ := mark_seen_of_not_seen c.1 c.2 db h0'
  have hseen1 : is_seen s sid ty (mark_seen c.1 c.2 db) = true := by
    rw [← h1, ← h2, ← h3]
    exact is_seen_mark_seen_self c.1 c.2 db
  have hrest : apply_mark_seen rest (mark_seen c.1 c.2 db)
      = mark_seen c.1 c.2 db :=
    apply_mark_seen_of_seen s sid ty rest _
      (fun x hx => hkeys x (List.mem_cons_of_mem c hx)) hseen1
  have hnomatch : ∀ r ∈ db.seen_items, ¬ key_matches r s sid ty = true := by
    simpa [is_seen] using h0
  have hnew : key_matches (mk_record c.1 c.2) s sid ty = true := by
    rw [← h1, ← h2, ← h3]
    exact key_matches_mk_record_self c.1 c.2
  have hchain : apply_mark_seen (c :: rest) db = mark_seen c.1 c.2 db := by
    simp only [apply_mark_seen]
    exact hrest
  refine ⟨?_, ?_, hseen1⟩
  · rw [hchain]
    unfold seen_count
    rw [happ, List.filter_append]
    have hnil : db.seen_items.filter (fun r => key_matches r s sid ty) = [] :=
      List.filter_eq_nil_iff.mpr hnomatch
    simp [hnil, hnew]
  · rw [hchain]
    unfold find_record
    rw [happ, List.find?_append]
    have hnone : db.seen_items.find? (fun r => key_matches r s sid ty) = none :=
      List.find?_eq_none.mpr hnomatch
    simp [hnone, hnew]

/-- Witness for C1: two duplicate `mark_seen` calls on an empty database
leave exactly one record, the one from the first call. -/
theorem mark_seen_first_write_wins_witness :
    seen_count "github" "42" "issue"
        (apply_mark_seen [(sample_item, "2024-06-01"), (sample_item, "2024-06-02")]
          DBState.empty) = 1
    ∧ find_record "github" "42" "issue"
        (apply_mark_seen [(sample_item, "2024-06-01"), (sample_item, "2024-06-02")]
          DBState.empty)
        = some (mk_record sample_item "2024-06-01")
    ∧ is_seen "github" "42" "issue"
        (mark_seen sample_item "2024-06-01" DBState.empty) = true :=
  mark_seen_first_write_wins "github" "42" "issue"
    (sample_item, "2024-06-01") [(sample_item, "2024-06-02")] DBState.empty
    (by decide) (by decide)

/-! ### Lemmas about the watcher-state table -/

lemma get_watcher_state_set (watcher_name : String) (st : WatcherState)
    (db : DBState) :
    get_watcher_state watcher_name (set_watcher_state watcher_name st db)
      = some st := by
  simp [get_watcher_state, set_watcher_state]

lemma consecutive_failures_update_false (watcher_name : String)
    (m : Option Meta) (now : String) (db : DBState) :
    get_consecutive_failures watcher_name
        (update_watcher_state watcher_name false m now db)
      = get_consecutive_failures watcher_name db + 1 := by
  cases h : get_watcher_state watcher_name db <;>
    simp [update_watcher_state, h, get_consecutive_failures,
      get_watcher_state_set]

lemma recorded_last_success_update_false (watcher_name : String)
    (m : Option Meta) (now : String) (db : DBState) :
    recorded_last_success watcher_name
        (update_watcher_state watcher_name false m now db)
      = recorded_last_success watcher_name db := by
  cases h : get_watcher_state watcher_name db <;>
    simp [update_watcher_state, h, recorded_last_success,
      get_watcher_state_set]

lemma consecutive_failures_iterate (watcher_name : String)
    (times : Nat → String) :
    ∀ (n : Nat) (db : DBState),
      get_consecutive_failures watcher_name
          (iterate_failures watcher_name times n db)
        = get_consecutive_failures watcher_name db + n := by
  intro n
  induction n with
  | zero => intro db; simp [iterate_failures]
  | succ k ih =>
    intro db
    simp only [iterate_failures]
    rw [ih, consecutive_failures_update_false]
    omega

/-- C2.  `update_watcher_state` semantics: a successful call zeroes
`consecutive_failures` and sets `last_successful_at` to the call time; a
failing call increments `consecutive_failures` by one (so `n` consecutive
failing calls add `n`; starting from no row or a zero counter they yield
exactly `n`) and leaves `last_successful_at` unchanged; and no call —
successful or not — clears `last_successful_at` or moves it backwards
(times being monotone: the stored time is at most the call time). -/
theorem update_watcher_state_spec (watcher_name : String) (m : Option Meta)
    (now : String) (db : DBState) :
    (get_consecutive_failures watcher_name
        (update_watcher_state watcher_name true m now db) = 0
      ∧ recorded_last_success watcher_name
          (update_watcher_state watcher_name true m now db) = some now)
    ∧ (get_consecutive_failures watcher_name
          (update_watcher_state watcher_name false m now db)
        = get_consecutive_failures watcher_name db + 1
      ∧ recorded_last_success watcher_name
          (update_watcher_state watcher_name false m now db)
        = recorded_last_success watcher_name db)
    ∧ (∀ (times : Nat → String) (n : Nat),
        get_consecutive_failures watcher_name
            (iterate_failures watcher_name times n db)
          = get_consecutive_failures watcher_name db + n)
    ∧ (∀ (successful : Bool) (t : String),
        recorded_last_success watcher_name db = some t → t ≤ now →
        ∃ u, recorded_last_success watcher_name
            (update_watcher_state watcher_name successful m now db) = some u
          ∧ t ≤ u) := by
  refine ⟨⟨?_, ?_⟩, ⟨consecutive_failures_update_false watcher_name m now db,
    recorded_last_success_update_false watcher_name m now db⟩,
    fun times n => consecutive_failures_iterate watcher_name times n db, ?_⟩
  · cases h : get_watcher_state watcher_name db <;>
      simp [update_watcher_state, h, get_consecutive_failures,
        get_watcher_state_set]
  · cases h : get_watcher_state watcher_name db <;>
      simp [update_watcher_state, h, recorded_last_success,
        get_watcher_state_set]
  · intro successful t ht htle
    cases h : get_watcher_state watcher_name db with
    | none => simp [recorded_last_success, h] at ht
    | some ex =>
      have hex : ex.last_successful_at = some t := by
        simpa [recorded_last_success, h] using ht
      cases successful with
      | false =>
        refine ⟨t, ?_, le_refl t⟩
        simp [update_watcher_state, h, recorded_last_success,
          get_watcher_state_set, hex]
      | true =>
        refine ⟨now, ?_, htle⟩
        simp [update_watcher_state, h, recorded_last_success,
          get_watcher_state_set]

/-- Witness for C2 at a concrete watcher state with a success at `"1"`. -/
theorem update_watcher_state_spec_witness :
    get_consecutive_failures "w"
        (update_watcher_state "w" true none "2" sample_state_db) = 0
    ∧ recorded_last_success "w"
        (update_watcher_state "w" false none "2" sample_state_db)
      = recorded_last_success "w" sample_state_db
    ∧ get_consecutive_failures "w"
        (iterate_failures "w" (fun _ => "2") 3 sample_state_db)
      = get_consecutive_failures "w" sample_state_db + 3
    ∧ (recorded_last_success "w"
        (update_watcher_state "w" false none "1" sample_state_db)).isSome
      = true := by
  have h := update_watcher_state_spec "w" none "2" sample_state_db
  have h1 := update_watcher_state_spec "w" none "1" sample_state_db
  refine ⟨h.1.1, h.2.1.2, h.2.2.1 (fun _ => "2") 3, ?_⟩
  obtain ⟨u, hu, _⟩ := h1.2.2.2 false "1" (by decide) (le_refl "1")
  simp [hu]

/-! ### Failure escalation -/

lemma run_watcher_failure_events (watcher_name : String) (frn : Bool)
    (err : String) (analyze : WatcherItem → Except String TriageResult)
    (now : String) (db : DBState) :
    ((run_watcher watcher_name frn (.error err) analyze now db).2 ≠ [] ↔
      (5 ≤ get_consecutive_failures watcher_name db + 1
        ∧ (get_consecutive_failures watcher_name db + 1) % 5 = 0)) := by
  have hf := consecutive_failures_update_false watcher_name none now db
  simp only [run_watcher]
  rw [hf]
  split
  · rename_i hcond
    refine ⟨fun _ => hcond, fun _ => ?_⟩
    simp
  · rename_i hcond
    exact ⟨fun h => absurd rfl h, fun h => absurd h hcond⟩

/-- C3.  After a failed run is recorded, escalation is emitted iff the
updated consecutive-failure count (previous count plus one) is at least 5
and divisible by 5; starting from a watcher with no failures on record,
the run after `n` prior consecutive failures escalates iff `n + 1` is one
of 5, 10, 15, … — never on counts 1–4 or 6–9. -/
theorem escalation_fires_every_fifth (watcher_name : String) (frn : Bool)
    (err : String) (analyze : WatcherItem → Except String TriageResult)
    (now : String) (db : DBState) :
    ((run_watcher watcher_name frn (.error err) analyze now db).2 ≠ [] ↔
      (5 ≤ get_consecutive_failures watcher_name db + 1
        ∧ (get_consecutive_failures watcher_name db + 1) % 5 = 0))
    ∧ (∀ (times : Nat → String) (n : Nat),
        get_consecutive_failures watcher_name db = 0 →
        ((run_watcher watcher_name frn (.error err) analyze now
            (iterate_failures watcher_name times n db)).2 ≠ [] ↔
          (5 ≤ n + 1 ∧ (n + 1) % 5 = 0))) := by
  refine ⟨run_watcher_failure_events watcher_name frn err analyze now db, ?_⟩
  intro times n h0
  have h := run_watcher_failure_events watcher_name frn err analyze now
    (iterate_failures watcher_name times n db)
  rwa [consecutive_failures_iterate watcher_name times n db, h0,
    Nat.zero_add] at h

/-- Witness for C3: on an empty database the 5th consecutive failure
escalates and the 6th does not. -/
theorem escalation_fires_every_fifth_witness :
    (run_watcher "w" false (.error "boom") (fun _ => .error "x") "t9"
        (iterate_failures "w" (fun _ => "t") 4 DBState.empty)).2 ≠ []
    ∧ (run_watcher "w" false (.error "boom") (fun _ => .error "x") "t9"
        (iterate_failures "w" (fun _ => "t") 5 DBState.empty)).2 = [] := by
  have h := escalation_fires_every_fifth "w" false "boom"
    (fun _ => .error "x") "t9" DBState.empty
  constructor
  · exact (h.2 (fun _ => "t") 4 (by decide)).mpr (by decide)
  · have h6 := h.2 (fun _ => "t") 5 (by decide)
    by_contra hne
    exact (by decide : ¬(5 ≤ 5 + 1 ∧ (5 + 1) % 5 = 0)) (h6.mp hne)

/-! ### The escalation notification's last-success field -/

lemma get_watcher_state_update_false (watcher_name : String) (m : Option Meta)
    (now : String) (db : DBState) :
    ∃ st, get_watcher_state watcher_name
        (update_watcher_state watcher_name false m now db) = some st
      ∧ st.last_successful_at = recorded_last_success watcher_name db := by
  cases h : get_watcher_state watcher_name db <;>
    simp [update_watcher_state, h, get_watcher_state_set,
      recorded_last_success]

/-- C9 (amended).  Whenever the failure path emits an escalation
notification, its last-success field is the watcher's recorded
`last_successful_at` time, or the text `"Never"` when the watcher has no
recorded successful run (no state row, or a row with the column NULL);
the failures field is the updated consecutive-failure count.  (The
hypothesis excludes the-empty-string timestamps, which never arise.) -/
theorem escalation_reports_last_success (watcher_name : String) (frn : Bool)
    (err : String) (analyze : WatcherItem → Except String TriageResult)
    (now : String) (db : DBState)
    (hne : ∀ s, recorded_last_success watcher_name db = some s → ¬ s = "") :
    ∀ ev ∈ (run_watcher watcher_name frn (.error err) analyze now db).2,
      ev = Event.escalation watcher_name
        (get_consecutive_failures watcher_name db + 1) err
        (match recorded_last_success watcher_name db with
          | some s => s
          | none => "Never") := by
  intro ev hev
  simp only [run_watcher] at hev
  split at hev
  · simp only [List.mem_singleton] at hev
    subst hev
    obtain ⟨st1, hst1, hls⟩ :=
      get_watcher_state_update_false watcher_name none now db
    rw [notify_watcher_failure, hst1,
      consecutive_failures_update_false watcher_name none now db]
    simp only [last_success_param]
    cases hrec : recorded_last_success watcher_name db with
    | none =>
      rw [hls, hrec]
      simp [display_last_success]
    | some s =>
      have hs := hne s hrec
      rw [hls, hrec]
      simp [display_last_success, hs]
  · cases hev

/-- Witness for C9 (amended), at a watcher with four prior failures and no
recorded success: the emitted field is `"Never"`. -/
theorem escalation_reports_last_success_witness :
    Event.escalation "github" 5 "boom" "Never"
      = Event.escalation "github"
          (get_consecutive_failures "github" four_failures_db + 1) "boom"
          (match recorded_last_success "github" four_failures_db with
            | some s => s
            | none => "Never") :=
  escalation_reports_last_success "github" false "boom"
    (fun _ => .error "x") "2024-06-01T00:05:00+00:00" four_failures_db
    (by
      intro s hs
      rw [show recorded_last_success "github" four_failures_db = none from
        by decide] at hs
      cases hs)
    (Event.escalation "github" 5 "boom" "Never") (by decide)

/-- Counterexample for C9 as stated: at a concrete watcher with four prior
failures and no recorded successful run, the 5th failure emits an
escalation whose last-success field is the text `"Never"`, not the claimed
text `"never"`. -/
theorem escalation_last_success_text_counterexample :
    (run_watcher "github" false (.error "boom") (fun _ => .error "x")
        "2024-06-01T00:05:00+00:00" four_failures_db).2
      = [Event.escalation "github" 5 "boom" "Never"]
    ∧ recorded_last_success "github" four_failures_db = none
    ∧ ("Never" : String) ≠ "never" :=
  ⟨by decide, by decide, by decide⟩

/-! ### Per-item pipeline lemmas -/

lemma process_item_fst (frn fr : Bool) (analyze : Except String TriageResult)
    (item : WatcherItem) (now : String) (db : DBState) :
    (process_item frn fr analyze item now db).1
      = update_triage item.source item.source_id item.item_type
          (resolve_triage analyze).classification
          (resolve_triage analyze).severity
          (resolve_triage analyze).summary now (mark_seen item now db) := by
  simp only [process_item]
  split <;> rfl

lemma process_item_snd_suppressed (analyze : Except String TriageResult)
    (item : WatcherItem) (now : String) (db : DBState) :
    (process_item false true analyze item now db).2 = [] := by
  simp [process_item]

lemma process_item_snd_not_first (frn : Bool)
    (analyze : Except String TriageResult) (item : WatcherItem)
    (now : String) (db : DBState) :
    (process_item frn false analyze item now db).2
      = [Event.item_note item (resolve_triage analyze)] := by
  simp [process_item]

lemma is_seen_update_triage (s1 sid1 ty1 c v su now : String) (db : DBState)
    (s sid ty : String) :
    is_seen s sid ty (update_triage s1 sid1 ty1 c v su now db)
      = is_seen s sid ty db := by
  simp only [is_seen, update_triage, List.any_map]
  congr 1
  funext r
  by_cases hk : key_matches r s1 sid1 ty1 <;>
    simp [hk, Function.comp, key_matches_set_triage]

lemma find_record_update_triage_self (s sid ty c v su now : String)
    (db : DBState) (h : is_seen s sid ty db = true) :
    ∃ r0, find_record s sid ty db = some r0
      ∧ find_record s sid ty (update_triage s sid ty c v su now db)
          = some (set_triage c v su now r0) := by
  have hsome : (db.seen_items.find? (fun r => key_matches r s sid ty)).isSome := by
    rw [List.find?_isSome]
    simpa [is_seen] using h
  obtain ⟨r0, hr0⟩ := Option.isSome_iff_exists.mp hsome
  have hkey0 := List.find?_some hr0
  have hkey : key_matches r0 s sid ty = true := hkey0
  refine ⟨r0, hr0, ?_⟩
  unfold find_record update_triage
  simp only [List.find?_map]
  have hcomp : ((fun r => key_matches r s sid ty) ∘
      (fun r => if key_matches r s sid ty then set_triage c v su now r else r))
      = fun r => key_matches r s sid ty := by
    funext r
    by_cases hk : key_matches r s sid ty <;>
      simp [hk, Function.comp, key_matches_set_triage]
  rw [hcomp, hr0]
  simp [hkey]

lemma find_record_update_triage_other (s1 sid1 ty1 c v su now : String)
    (db : DBState) (s sid ty : String)
    (hdiff : ¬(s1 = s ∧ sid1 = sid ∧ ty1 = ty)) :
    find_record s sid ty (update_triage s1 sid1 ty1 c v su now db)
      = find_record s sid ty db := by
  unfold find_record update_triage
  simp only [List.find?_map]
  have hcomp : ((fun r => key_matches r s sid ty) ∘
      (fun r => if key_matches r s1 sid1 ty1 then set_triage c v su now r else r))
      = fun r => key_matches r s sid ty := by
    funext r
    by_cases hk : key_matches r s1 sid1 ty1 <;>
      simp [hk, Function.comp, key_matches_set_triage]
  rw [hcomp]
  cases hr : db.seen_items.find? (fun r => key_matches r s sid ty) with
  | none => rfl
  | some r0 =>
    have hkey0 := List.find?_some hr
    have hkey : key_matches r0 s sid ty = true := hkey0
    have hnot : key_matches r0 s1 sid1 ty1 = false := by
      rw [Bool.eq_false_iff]
      intro hk1
      obtain ⟨a1, a2, a3⟩ := (key_matches_eq_true r0 s1 sid1 ty1).mp hk1
      obtain ⟨b1, b2, b3⟩ := (key_matches_eq_true r0 s sid ty).mp hkey
      exact hdiff ⟨a1 ▸ b1, a2 ▸ b2, a3 ▸ b3⟩
    simp [hnot]

lemma key_matches_mk_record_other (item : WatcherItem) (now : String)
    (s sid ty : String)
    (hdiff : ¬(item.source = s ∧ item.source_id = sid ∧ item.item_type = ty)) :
    key_matches (mk_record item now) s sid ty = false := by
  rw [Bool.eq_false_iff]
  intro hk
  exact hdiff ((key_matches_eq_true (mk_record item now) s sid ty).mp hk)

lemma is_seen_mark_seen_other (item : WatcherItem) (now : String)
    (db : DBState) (s sid ty : String)
    (hdiff : ¬(item.source = s ∧ item.source_id = sid ∧ item.item_type = ty)) :
    is_seen s sid ty (mark_seen item now db) = is_seen s sid ty db := by
  cases h : is_seen item.source item.source_id item.item_type db
  · rw [is_seen, mark_seen_of_not_seen item now db h]
    simp [List.any_append, key_matches_mk_record_other item now s sid ty hdiff,
      is_seen]
  · rw [mark_seen_of_seen item now db h]

lemma find_record_mark_seen_other (item : WatcherItem) (now : String)
    (db : DBState) (s sid ty : String)
    (hdiff : ¬(item.source = s ∧ item.source_id = sid ∧ item.item_type = ty)) :
    find_record s sid ty (mark_seen item now db) = find_record s sid ty db := by
  cases h : is_seen item.source item.source_id item.item_type db
  · rw [find_record, mark_seen_of_not_seen item now db h, List.find?_append]
    simp [key_matches_mk_record_other item now s sid ty hdiff, find_record]
  · rw [mark_seen_of_seen item now db h]

lemma process_item_preserves_other (frn fr : Bool)
    (analyze : Except String TriageResult) (item : WatcherItem)
    (now : String) (db : DBState) (s sid ty : String)
    (hdiff : ¬(item.source = s ∧ item.source_id = sid ∧ item.item_type = ty)) :
    find_record s sid ty (process_item frn fr analyze item now db).1
        = find_record s sid ty db
    ∧ is_seen s sid ty (process_item frn fr analyze item now db).1
        = is_seen s sid ty db := by
  rw [process_item_fst]
  constructor
  · rw [find_record_update_triage_other _ _ _ _ _ _ _ _ _ _ _ hdiff,
      find_record_mark_seen_other item now db s sid ty hdiff]
  · rw [is_seen_update_triage,
      is_seen_mark_seen_other item now db s sid ty hdiff]

lemma process_item_records_triage (frn fr : Bool)
    (analyze : Except String TriageResult) (item : WatcherItem)
    (now : String) (db : DBState) :
    ∃ r, find_record item.source item.source_id item.item_type
        (process_item frn fr analyze item now db).1 = some r
      ∧ r.classification = some (resolve_triage analyze).classification
      ∧ r.severity = some (resolve_triage analyze).severity
      ∧ r.summary = some (resolve_triage analyze).summary
      ∧ r.notified_at = some now := by
  rw [process_item_fst]
  obtain ⟨r0, _, hupd⟩ := find_record_update_triage_self item.source
    item.source_id item.item_type (resolve_triage analyze).classification
    (resolve_triage analyze).severity (resolve_triage analyze).summary now
    (mark_seen item now db) (is_seen_mark_seen_self item now db)
  exact ⟨_, hupd, by simp [set_triage]⟩

/-- C7.  If the classifier raises, `_process_item` behaves exactly as if
it had returned the fixed fallback result: the item is still marked seen,
its triage is recorded as
`("unclassified", "unknown", "AI triage unavailable")`, and the remaining
steps run unchanged — the failure neither aborts the item's processing
nor produces any escalation (the whole processing step is the same value,
so it raises nothing for the run loop to escalate). -/
theorem classifier_failure_uses_fallback (frn fr : Bool) (e : String)
    (item : WatcherItem) (now : String) (db : DBState) :
    process_item frn fr (.error e) item now db
      = process_item frn fr (.ok fallback_triage) item now db
    ∧ is_seen item.source item.source_id item.item_type
        (process_item frn fr (.error e) item now db).1 = true
    ∧ ∃ r, find_record item.source item.source_id item.item_type
          (process_item frn fr (.error e) item now db).1 = some r
        ∧ r.classification = some "unclassified"
        ∧ r.severity = some "unknown"
        ∧ r.summary = some "AI triage unavailable" := by
  refine ⟨rfl, ?_, ?_⟩
  · rw [process_item_fst, is_seen_update_triage]
    exact is_seen_mark_seen_self item now db
  · obtain ⟨r, hr, h1, h2, h3, _⟩ :=
      process_item_records_triage frn fr (.error e) item now db
    exact ⟨r, hr, h1, h2, h3⟩

/-- C10.  `update_triage` sets `notified_at` unconditionally together with
the triage fields; in particular an item processed in a suppressed
first-run cycle (no notification dispatched) still ends up with a non-null
`notified_at` — the column does not witness an actual send. -/
theorem notified_at_set_without_dispatch (item : WatcherItem)
    (analyze : Except String TriageResult) (now : String) (db : DBState) :
    ((process_item false true analyze item now db).2 = []
      ∧ ∃ r, find_record item.source item.source_id item.item_type
            (process_item false true analyze item now db).1 = some r
          ∧ r.notified_at = some now)
    ∧ (∀ (s sid ty c v su : String) (db2 : DBState),
        is_seen s sid ty db2 = true →
        ∃ r, find_record s sid ty (update_triage s sid ty c v su now db2)
            = some r
          ∧ r.notified_at = some now ∧ r.classification = some c
          ∧ r.severity = some v ∧ r.summary = some su) := by
  constructor
  · refine ⟨process_item_snd_suppressed analyze item now db, ?_⟩
    obtain ⟨r, hr, _, _, _, hn⟩ :=
      process_item_records_triage false true analyze item now db
    exact ⟨r, hr, hn⟩
  · intro s sid ty c v su db2 hseen
    obtain ⟨r0, _, hupd⟩ :=
      find_record_update_triage_self s sid ty c v su now db2 hseen
    exact ⟨_, hupd, by simp [set_triage]⟩

/-- Witness for C10: a concrete suppressed first-run item gets
`notified_at` stamped although no notification is dispatched. -/
theorem notified_at_set_without_dispatch_witness :
    (process_item false true (.ok sample_triage) sample_item "2024-06-02"
        DBState.empty).2 = []
    ∧ (find_record "github" "42" "issue"
        (process_item false true (.ok sample_triage) sample_item "2024-06-02"
          DBState.empty).1).map (fun r => r.notified_at)
      = some (some "2024-06-02")
    ∧ (find_record "github" "42" "issue"
        (update_triage "github" "42" "issue" "bug_report" "high" "s"
          "2024-06-02" (mark_seen sample_item "2024-06-01" DBState.empty))).map
        (fun r => r.notified_at)
      = some (some "2024-06-02") := by
  have h := notified_at_set_without_dispatch sample_item (.ok sample_triage)
    "2024-06-02" DBState.empty
  obtain ⟨⟨hev, r, hr, hn⟩, hgen⟩ := h
  obtain ⟨r2, hr2, hn2, _⟩ := hgen "github" "42" "issue" "bug_report" "high"
    "s" (mark_seen sample_item "2024-06-01" DBState.empty) (by decide)
  refine ⟨hev, ?_, ?_⟩
  · have : find_record sample_item.source sample_item.source_id
        sample_item.item_type
        (process_item false true (.ok sample_triage) sample_item "2024-06-02"
          DBState.empty).1 = some r := hr
    rw [show ("github" : String) = sample_item.source from rfl,
      show ("42" : String) = sample_item.source_id from rfl,
      show ("issue" : String) = sample_item.item_type from rfl, this]
    simp [hn]
  · rw [hr2]
    simp [hn2]

/-! ### Batch processing and first-run suppression -/

lemma process_batch_cons (frn fr : Bool)
    (analyze : WatcherItem → Except String TriageResult) (now : String)
    (item : WatcherItem) (rest : List WatcherItem) (db : DBState) :
    process_batch frn fr analyze now (item :: rest) db
      = ((process_batch frn fr analyze now rest
            (process_item frn fr (analyze item) item now db).1).1,
         (process_item frn fr (analyze item) item now db).2
           ++ (process_batch frn fr analyze now rest
                (process_item frn fr (analyze item) item now db).1).2) :=
  rfl

lemma process_batch_snd_suppressed
    (analyze : WatcherItem → Except String TriageResult) (now : String) :
    ∀ (items : List WatcherItem) (db : DBState),
      (process_batch false true analyze now items db).2 = [] := by
  intro items
  induction items with
  | nil => intro db; rfl
  | cons item rest ih =>
    intro db
    rw [process_batch_cons]
    simp [process_item_snd_suppressed, ih]

lemma process_batch_snd_not_first (frn : Bool)
    (analyze : WatcherItem → Except String TriageResult) (now : String) :
    ∀ (items : List WatcherItem) (db : DBState),
      (process_batch frn false analyze now items db).2
        = items.map (fun it => Event.item_note it (resolve_triage (analyze it))) := by
  intro items
  induction items with
  | nil => intro db; rfl
  | cons item rest ih =>
    intro db
    rw [process_batch_cons]
    simp [process_item_snd_not_first, ih]

lemma process_batch_preserves (frn fr : Bool)
    (analyze : WatcherItem → Except String TriageResult) (now : String) :
    ∀ (items : List WatcherItem) (db : DBState) (s sid ty : String),
      (∀ it ∈ items,
        ¬(it.source = s ∧ it.source_id = sid ∧ it.item_type = ty)) →
      find_record s sid ty (process_batch frn fr analyze now items db).1
        = find_record s sid ty db := by
  intro items
  induction items with
  | nil => intro db s sid ty _; rfl
  | cons item rest ih =>
    intro db s sid ty hd
    rw [process_batch_cons]
    have h1 := (process_item_preserves_other frn fr (analyze item) item now db
      s sid ty (hd item (List.mem_cons_self item rest))).1
    rw [ih _ s sid ty (fun x hx => hd x (List.mem_cons_of_mem item hx)), h1]

lemma process_item_fst_length (frn fr : Bool)
    (analyze : Except String TriageResult) (item : WatcherItem)
    (now : String) (db : DBState)
    (h : is_seen item.source item.source_id item.item_type db = false) :
    (process_item frn fr analyze item now db).1.seen_items.length
      = db.seen_items.length + 1 := by
  rw [process_item_fst]
  simp only [update_triage, List.length_map]
  rw [mark_seen_of_not_seen item now db h]
  simp

lemma process_batch_spec (frn fr : Bool)
    (analyze : WatcherItem → Except String TriageResult) (now : String) :
    ∀ (items : List WatcherItem) (db : DBState),
      (∀ it ∈ items, is_seen it.source it.source_id it.item_type db = false) →
      items.Pairwise (fun a b =>
        (a.source, a.source_id, a.item_type)
          ≠ (b.source, b.source_id, b.item_type)) →
      ((process_batch frn fr analyze now items db).1.seen_items.length
          = db.seen_items.length + items.length)
      ∧ (∀ it ∈ items, ∃ r,
          find_record it.source it.source_id it.item_type
            (process_batch frn fr analyze now items db).1 = some r
          ∧ r.classification.isSome ∧ r.severity.isSome ∧ r.summary.isSome) := by
  intro items
  induction items with
  | nil => intro db _ _; exact ⟨by simp [process_batch], by simp⟩
  | cons item rest ih =>
    intro db hnew hpw
    have hnew_item := hnew item (List.mem_cons_self item rest)
    have hpw_head := (List.pairwise_cons.mp hpw).1
    have hpw_rest := (List.pairwise_cons.mp hpw).2
    have hdiff : ∀ b ∈ rest,
        ¬(item.source = b.source ∧ item.source_id = b.source_id
          ∧ item.item_type = b.item_type) := by
      intro b hb hcontra
      exact hpw_head b hb (by
        rw [hcontra.1, hcontra.2.1, hcontra.2.2])
    have hnew_rest : ∀ b ∈ rest, is_seen b.source b.source_id b.item_type
        (process_item frn fr (analyze item) item now db).1 = false := by
      intro b hb
      rw [(process_item_preserves_other frn fr (analyze item) item now db
        b.source b.source_id b.item_type (hdiff b hb)).2]
      exact hnew b (List.mem_cons_of_mem item hb)
    obtain ⟨ihlen, ihrec⟩ :=
      ih (process_item frn fr (analyze item) item now db).1 hnew_rest hpw_rest
    constructor
    · rw [process_batch_cons]
      simp only []
      rw [ihlen, process_item_fst_length frn fr (analyze item) item now db
        hnew_item]
      simp [Nat.add_assoc, Nat.add_comm 1 rest.length]
    · intro b hb
      rcases List.mem_cons.mp hb with hb1 | hb2
      · subst hb1
        obtain ⟨r, hr, h1, h2, h3, _⟩ :=
          process_item_records_triage frn fr (analyze b) b now db
        rw [process_batch_cons]
        simp only []
        rw [process_batch_preserves frn fr analyze now rest _ b.source
          b.source_id b.item_type (by
            intro x hx hcontra
            exact hdiff x hx ⟨hcontra.1.symm, hcontra.2.1.symm, hcontra.2.2.symm⟩)]
        exact ⟨r, hr, by simp [h1], by simp [h2], by simp [h3]⟩
      · obtain ⟨r, hr, h1, h2, h3⟩ := ihrec b hb2
        rw [process_batch_cons]
        simp only []
        exact ⟨r, hr, h1, h2, h3⟩

lemma seen_items_update_watcher_state (watcher_name : String)
    (successful : Bool) (m : Option Meta) (now : String) (db : DBState) :
    (update_watcher_state watcher_name successful m now db).seen_items
      = db.seen_items := by
  cases h : get_watcher_state watcher_name db <;>
    simp [update_watcher_state, h, set_watcher_state]

lemma find_record_update_watcher_state (watcher_name : String)
    (successful : Bool) (m : Option Meta) (now : String) (db : DBState)
    (s sid ty : String) :
    find_record s sid ty (update_watcher_state watcher_name successful m now db)
      = find_record s sid ty db := by
  unfold find_record
  rw [seen_items_update_watcher_state]

lemma run_watcher_ok (watcher_name : String) (frn : Bool)
    (items : List WatcherItem)
    (analyze : WatcherItem → Except String TriageResult) (now : String)
    (db : DBState) :
    run_watcher watcher_name frn (.ok items) analyze now db
      = (update_watcher_state watcher_name true none now
          (process_batch frn (is_first_run watcher_name db) analyze now
            items db).1,
         (process_batch frn (is_first_run watcher_name db) analyze now
            items db).2) :=
  rfl

/-- C4.  First-run suppression: a successful cycle whose `is_first_run`
snapshot (taken once before the batch) is true, with `first_run_notify`
disabled, records each of the `n` new items (one `SeenRecord` each, with
triage recorded) yet dispatches no notification; a cycle whose snapshot is
false dispatches one notification per new item. -/
theorem first_run_suppression (watcher_name : String)
    (analyze : WatcherItem → Except String TriageResult) (now : String)
    (items : List WatcherItem) (db : DBState)
    (hnew : ∀ it ∈ items, is_seen it.source it.source_id it.item_type db = false)
    (hpw : items.Pairwise (fun a b =>
      (a.source, a.source_id, a.item_type)
        ≠ (b.source, b.source_id, b.item_type)))
    (hfirst : is_first_run watcher_name db = true) :
    ((run_watcher watcher_name false (.ok items) analyze now db).2 = []
      ∧ (run_watcher watcher_name false (.ok items) analyze now db).1.seen_items.length
          = db.seen_items.length + items.length
      ∧ ∀ it ∈ items, ∃ r,
          find_record it.source it.source_id it.item_type
            (run_watcher watcher_name false (.ok items) analyze now db).1 = some r
          ∧ r.classification.isSome ∧ r.severity.isSome ∧ r.summary.isSome)
    ∧ (∀ (frn : Bool) (db2 : DBState), is_first_run watcher_name db2 = false →
        (run_watcher watcher_name frn (.ok items) analyze now db2).2
          = items.map (fun it =>
              Event.item_note it (resolve_triage (analyze it)))) := by
  constructor
  · obtain ⟨hlen, hrec⟩ := process_batch_spec false true analyze now items db
      hnew hpw
    refine ⟨?_, ?_, ?_⟩
    · rw [run_watcher_ok, hfirst]
      exact process_batch_snd_suppressed analyze now items db
    · rw [run_watcher_ok, hfirst]
      simp only [seen_items_update_watcher_state]
      exact hlen
    · intro it hit
      obtain ⟨r, hr, h1, h2, h3⟩ := hrec it hit
      rw [run_watcher_ok, hfirst]
      simp only [find_record_update_watcher_state]
      exact ⟨r, hr, h1, h2, h3⟩
  · intro frn db2 hnotfirst
    rw [run_watcher_ok, hnotfirst]
    exact process_batch_snd_not_first frn analyze now items db2

/-- Witness for C4: two new items on an empty database — first cycle
records both and notifies nothing; a cycle on a database with a prior
success notifies both. -/
theorem first_run_suppression_witness :
    (run_watcher "w" false (.ok [sample_item, sample_item2])
        (fun _ => .ok sample_triage) "t1" DBState.empty).2 = []
    ∧ (run_watcher "w" false (.ok [sample_item, sample_item2])
        (fun _ => .ok sample_triage) "t1" DBState.empty).1.seen_items.length
      = DBState.empty.seen_items.length + 2
    ∧ (run_watcher "w" false (.ok [sample_item, sample_item2])
        (fun _ => .ok sample_triage) "t2" sample_state_db).2
      = [Event.item_note sample_item (resolve_triage (.ok sample_triage)),
         Event.item_note sample_item2 (resolve_triage (.ok sample_triage))] := by
  have h := first_run_suppression "w" (fun _ => .ok sample_triage) "t1"
    [sample_item, sample_item2] DBState.empty (by decide) (by decide) (by decide)
  refine ⟨h.1.1, h.1.2.1, ?_⟩
  have h2 := first_run_suppression "w" (fun _ => .ok sample_triage) "t2"
    [sample_item, sample_item2] DBState.empty (by decide) (by decide) (by decide)
  exact h2.2 false sample_state_db (by decide)

/-! ### Retry policy -/

lemma retry_go_succ {E A : Type} (op : Nat → Except E A)
    (retryable : E → Bool) (base_delay backoff_factor : ℚ)
    (attempt remaining : Nat) (le : Option E) :
    retry_go op retryable base_delay backoff_factor attempt (remaining + 1) le
      = match op attempt with
        | .ok a => ⟨.ok a, [], 1⟩
        | .error e =>
          if retryable e then
            if remaining = 0 then ⟨.error (some e), [], 1⟩
            else
              ⟨(retry_go op retryable base_delay backoff_factor (attempt + 1)
                  remaining (some e)).outcome,
               base_delay * backoff_factor ^ attempt ::
                 (retry_go op retryable base_delay backoff_factor (attempt + 1)
                   remaining (some e)).sleeps,
               (retry_go op retryable base_delay backoff_factor (attempt + 1)
                 remaining (some e)).calls + 1⟩
          else ⟨.error (some e), [], 1⟩ := rfl

lemma range_map_pow_cons (base_delay backoff_factor : ℚ) (attempt n : Nat) :
    (List.range (n + 1)).map
        (fun j => base_delay * backoff_factor ^ (attempt + j))
      = base_delay * backoff_factor ^ attempt ::
        (List.range n).map
          (fun j => base_delay * backoff_factor ^ (attempt + 1 + j)) := by
  rw [List.range_succ_eq_map, List.map_cons, List.map_map]
  simp only [List.cons.injEq]
  refine ⟨by rw [Nat.add_zero], ?_⟩
  apply List.map_congr_left
  intro j _
  simp only [Function.comp]
  rw [show attempt + Nat.succ j = attempt + 1 + j from by omega]

lemma retry_go_all_fail {E A : Type} (op : Nat → Except E A)
    (retryable : E → Bool) (base_delay backoff_factor : ℚ) (errs : Nat → E) :
    ∀ (remaining attempt : Nat) (le : Option E),
      1 ≤ remaining →
      (∀ i, attempt ≤ i → i < attempt + remaining →
        op i = .error (errs i) ∧ retryable (errs i) = true) →
      retry_go op retryable base_delay backoff_factor attempt remaining le
        = ⟨.error (some (errs (attempt + remaining - 1))),
           (List.range (remaining - 1)).map
             (fun j => base_delay * backoff_factor ^ (attempt + j)),
           remaining⟩ := by
  intro remaining
  induction remaining with
  | zero => intro attempt le h1 _; exact absurd h1 (by omega)
  | succ r ihr =>
    intro attempt le _ hops
    have hop := hops attempt (le_refl attempt) (by omega)
    cases r with
    | zero =>
      rw [retry_go_succ, hop.1]
      simp [hop.2]
    | succ r2 =>
      have ih := ihr (attempt + 1) (some (errs attempt)) (by omega)
        (fun i hi1 hi2 => hops i (by omega) (by omega))
      rw [retry_go_succ, hop.1]
      simp only [hop.2, if_true]
      rw [if_neg (Nat.succ_ne_zero r2), ih]
      have hidx : attempt + 1 + (r2 + 1) - 1 = attempt + (r2 + 1 + 1) - 1 := by
        omega
      have hsl : (List.range (r2 + 1 + 1 - 1)).map
            (fun j => base_delay * backoff_factor ^ (attempt + j))
          = base_delay * backoff_factor ^ attempt ::
            (List.range (r2 + 1 - 1)).map
              (fun j => base_delay * backoff_factor ^ (attempt + 1 + j)) := by
        rw [show r2 + 1 + 1 - 1 = r2 + 1 from rfl,
          show r2 + 1 - 1 = r2 from rfl]
        exact range_map_pow_cons base_delay backoff_factor attempt r2
      rw [hsl, hidx]

/-- C5.  For `max_attempts ≥ 1` and an operation raising a retryable
failure on every attempt, the retry wrapper calls the operation exactly
`max_attempts` times, sleeps `base_delay * backoff_factor ^ i` after the
failure on attempt `i` for each `i < max_attempts - 1` (so
`max_attempts - 1` sleeps, in order), and finally re-raises the failure of
the last attempt unmodified. -/
theorem retry_exhausts_and_reraises {E A : Type} (op : Nat → Except E A)
    (retryable : E → Bool) (base_delay backoff_factor : ℚ)
    (max_attempts : Nat) (errs : Nat → E)
    (hmax : 1 ≤ max_attempts)
    (hops : ∀ i, i < max_attempts →
      op i = .error (errs i) ∧ retryable (errs i) = true) :
    retry_run op retryable base_delay backoff_factor max_attempts
      = ⟨.error (some (errs (max_attempts - 1))),
         (List.range (max_attempts - 1)).map
           (fun i => base_delay * backoff_factor ^ i),
         max_attempts⟩ := by
  have h := retry_go_all_fail op retryable base_delay backoff_factor errs
    max_attempts 0 none hmax (fun i _ h2 => hops i (by omega))
  simpa [retry_run] using h

/-- Witness for C5: `max_attempts = 3`, `base_delay = 5`,
`backoff_factor = 2`, always-failing retryable operation — sleeps 5 then
10, three calls, re-raises the failure. -/
theorem retry_exhausts_and_reraises_witness :
    (retry_run (fun _ => (Except.error "e" : Except String Nat))
        (fun _ => true) 5 2 3).outcome = Except.error (some "e")
    ∧ (retry_run (fun _ => (Except.error "e" : Except String Nat))
        (fun _ => true) 5 2 3).sleeps = [5, 10]
    ∧ (retry_run (fun _ => (Except.error "e" : Except String Nat))
        (fun _ => true) 5 2 3).calls = 3 := by
  have h := retry_exhausts_and_reraises
    (fun _ => (Except.error "e" : Except String Nat)) (fun _ => true) 5 2 3
    (fun _ => "e") (by decide) (fun i _ => ⟨rfl, rfl⟩)
  rw [h]
  refine ⟨rfl, ?_, rfl⟩
  norm_num [List.range_succ]

lemma retry_go_nonretryable {E A : Type} (op : Nat → Except E A)
    (retryable : E → Bool) (base_delay backoff_factor : ℚ) (errs : Nat → E)
    (e : E) (t : Nat) (hope : op t = .error e) (hnr : retryable e = false) :
    ∀ (remaining attempt : Nat) (le : Option E),
      attempt ≤ t → t < attempt + remaining →
      (∀ i, attempt ≤ i → i < t →
        op i = .error (errs i) ∧ retryable (errs i) = true) →
      retry_go op retryable base_delay backoff_factor attempt remaining le
        = ⟨.error (some e),
           (List.range (t - attempt)).map
             (fun j => base_delay * backoff_factor ^ (attempt + j)),
           t - attempt + 1⟩ := by
  intro remaining
  induction remaining with
  | zero => intro attempt le h1 h2 _; exact absurd h2 (by omega)
  | succ r ihr =>
    intro attempt le h1 h2 hbefore
    by_cases hta : t = attempt
    · subst hta
      rw [retry_go_succ, hope]
      simp [hnr]
    · have hlt : attempt < t := by omega
      have hop := hbefore attempt (le_refl attempt) hlt
      have hr0 : r ≠ 0 := by omega
      have ih := ihr (attempt + 1) (some (errs attempt)) (by omega) (by omega)
        (fun i hi1 hi2 => hbefore i (by omega) hi2)
      rw [retry_go_succ, hop.1]
      simp only [hop.2, if_true]
      rw [if_neg hr0, ih]
      have hidx : t - (attempt + 1) + 1 = t - attempt := by omega
      have hsl : (List.range (t - attempt)).map
            (fun j => base_delay * backoff_factor ^ (attempt + j))
          = base_delay * backoff_factor ^ attempt ::
            (List.range (t - (attempt + 1))).map
              (fun j => base_delay * backoff_factor ^ (attempt + 1 + j)) := by
        rw [show t - attempt = (t - (attempt + 1)) + 1 from by omega]
        exact range_map_pow_cons base_delay backoff_factor attempt
          (t - (attempt + 1))
      rw [hsl, hidx]

/-- C6.  A failure outside the retryable class propagates immediately:
if the failure on 0-based attempt `t` is non-retryable (all earlier
attempts having failed retryably), the wrapper raises exactly that
failure after `t + 1` calls, with only the `t` sleeps from the earlier
retryable failures — no sleep follows the non-retryable failure and the
operation is not called again. -/
theorem nonretryable_propagates_immediately {E A : Type}
    (op : Nat → Except E A) (retryable : E → Bool)
    (base_delay backoff_factor : ℚ) (max_attempts t : Nat) (errs : Nat → E)
    (e : E) (ht : t < max_attempts) (hope : op t = .error e)
    (hnr : retryable e = false)
    (hbefore : ∀ i, i < t →
      op i = .error (errs i) ∧ retryable (errs i) = true) :
    retry_run op retryable base_delay backoff_factor max_attempts
      = ⟨.error (some e),
         (List.range t).map (fun j => base_delay * backoff_factor ^ j),
         t + 1⟩ := by
  have h := retry_go_nonretryable op retryable base_delay backoff_factor errs
    e t hope hnr max_attempts 0 none (by omega) (by omega)
    (fun i _ hi2 => hbefore i hi2)
  simpa [retry_run] using h

/-- Witness for C6: a retryable failure then a non-retryable one under
`max_attempts = 3` — one sleep, two calls, the non-retryable failure
raised. -/
theorem nonretryable_propagates_immediately_witness :
    (retry_run
        (fun i => if i = 0 then (Except.error "t" : Except String Nat)
          else Except.error "f")
        (fun s => s == "t") 5 2 3).outcome = Except.error (some "f")
    ∧ (retry_run
        (fun i => if i = 0 then (Except.error "t" : Except String Nat)
          else Except.error "f")
        (fun s => s == "t") 5 2 3).sleeps = [5]
    ∧ (retry_run
        (fun i => if i = 0 then (Except.error "t" : Except String Nat)
          else Except.error "f")
        (fun s => s == "t") 5 2 3).calls = 2 := by
  have h := nonretryable_propagates_immediately
    (fun i => if i = 0 then (Except.error "t" : Except String Nat)
      else Except.error "f")
    (fun s => s == "t") 5 2 3 1 (fun _ => "t") "f" (by decide) rfl (by decide)
    (fun i hi => by
      have hi0 : i = 0 := by omega
      subst hi0
      exact ⟨rfl, rfl⟩)
  rw [h]
  refine ⟨rfl, ?_, rfl⟩
  norm_num [List.range_succ]

/-! ### Notification dispatch -/

lemma send_notification_eq_map (sends : List (Except String Bool)) :
    send_notification sends = sends.map try_send := by
  induction sends with
  | nil => rfl
  | cons a rest ih => simp [send_notification, ih]

/-- C8.  Dispatch attempts every configured channel (one outcome per
channel, in order), each channel's outcome is a function of that
channel's own `send` result alone — so one channel raising or reporting
failure leaves every other channel attempted with an unchanged result —
and the loop catches each exception internally, returning an outcome list
rather than raising. -/
theorem dispatch_attempts_all_channels (sends : List (Except String Bool)) :
    (send_notification sends).length = sends.length
    ∧ (∀ i : Nat, (send_notification sends)[i]? = (sends[i]?).map try_send)
    ∧ (∀ (sends2 : List (Except String Bool)) (i : Nat),
        sends[i]? = sends2[i]? →
        (send_notification sends)[i]? = (send_notification sends2)[i]?) := by
  refine ⟨by rw [send_notification_eq_map]; simp, ?_, ?_⟩
  · intro i
    rw [send_notification_eq_map]
    simp [List.getElem?_map]
  · intro sends2 i hi
    rw [send_notification_eq_map, send_notification_eq_map]
    simp [List.getElem?_map, hi]

/-- Witness for C8: channel 0 raising, channel 1 succeeding — both are
attempted, and channel 1's outcome is the same as when channel 0
succeeds. -/
theorem dispatch_attempts_all_channels_witness :
    (send_notification [Except.error "x", Except.ok true]).length = 2
    ∧ (send_notification [Except.error "x", Except.ok true])[1]?
      = some (ChannelOutcome.sent true)
    ∧ (send_notification [Except.error "x", Except.ok true])[1]?
      = (send_notification [Except.ok false, Except.ok true])[1]? := by
  have h := dispatch_attempts_all_channels [Except.error "x", Except.ok true]
  refine ⟨h.1, ?_, h.2.2 [Except.ok false, Except.ok true] 1 rfl⟩
  rw [h.2.1 1]
  rfl

end Wingman
